import Mathlib

/-!
Verification of the `rcr` remote CLI runner (src/rcr.py).

The program is shallowly embedded: external effects (the on-disk
configuration file, the DNS resolver, the external process launcher) are
modelled as oracles carried in an environment record, and observable
output (standard output, error stream, launched argument vectors) is
collected in a trace.
-/

namespace Rcr

/-- Configuration for connecting to the remote host (dataclass `RemoteConfig`). -/
structure RemoteConfig where
  host : String
  user : String
  key : String
  port : Int := 22
deriving Repr, DecidableEq

/-- Model of the on-disk INI file at `CONFIG_PATH`: whether the file exists,
and, when parseable, the `[remote]` section as an association list of keys
to raw string values (`none` when the section is absent). -/
structure ConfigFile where
  fileExists : Bool
  remote : Option (List (String × String))
deriving Repr, DecidableEq

/-- A terminal configuration-stage failure: the lines written to the error
stream and the process exit status passed to `sys.exit`. -/
structure Failure where
  stderrLines : List String
  exitCode : Nat
deriving Repr, DecidableEq

/-- Python truthiness test `not value` for an optional string: `None` and
the empty string are falsy. -/
def isFalsy : Option String → Bool
  | none => true
  | some s => s.isEmpty

/-- Python whitespace stripped by `int(...)` on strings: the ASCII
whitespace characters (space, tab, newline, carriage return, vertical
tab, form feed). -/
def isPySpace (c : Char) : Bool :=
  c == ' ' || c == '\t' || c == '\n' || c == '\r' ||
    c == Char.ofNat 11 || c == Char.ofNat 12

/-- Numeric value of an ASCII digit character. -/
def digitVal (c : Char) : Nat := c.toNat - 48

/-- Digit run of Python `int(...)`: after an initial digit, digits may be
separated by single underscores; an underscore must be followed by a
digit. Accumulates the base-10 value. -/
def pyDigitsAux : List Char → Nat → Option Nat
  | [], acc => some acc
  | c :: rest, acc =>
    if c.isDigit then pyDigitsAux rest (acc * 10 + digitVal c)
    else if c == Char.ofNat 95 then
      match rest with
      | [] => none
      | d :: rest2 =>
        if d.isDigit then pyDigitsAux rest2 (acc * 10 + digitVal d) else none
    else none

/-- Python `int(s)` for a string `s`: strip surrounding whitespace, accept
an optional sign followed by a non-empty underscore-separated digit run;
`none` models a raised `ValueError`. -/
def pyIntParse (s : String) : Option Int :=
  let cs := ((s.data.dropWhile isPySpace).reverse.dropWhile isPySpace).reverse
  match cs with
  | '+' :: c :: rest =>
    if c.isDigit then (pyDigitsAux rest (digitVal c)).map Int.ofNat else none
  | '-' :: c :: rest =>
    if c.isDigit then (pyDigitsAux rest (digitVal c)).map (fun n => -(Int.ofNat n))
    else none
  | c :: rest =>
    if c.isDigit then (pyDigitsAux rest (digitVal c)).map Int.ofNat else none
  | [] => none

/-- The `missing` list computed by `load_config`: names among `host`,
`user`, `key` whose looked-up value is absent or empty, in source order. -/
def missingFields (sec : List (String × String)) : List String :=
  (([("host", List.lookup "host" sec),
     ("user", List.lookup "user" sec),
     ("key", List.lookup "key" sec)] : List (String × Option String)).filter
    (fun nv => isFalsy nv.2)).map Prod.fst

/-- `load_config()`: load the remote configuration from the file at `path`,
failing (diagnostics to the error stream, `sys.exit(1)`) when the file is
missing, the `[remote]` section is missing, a required field is empty or
absent, or the port does not parse as an integer. -/
def load_config (path : String) (file : ConfigFile) :
    Except Failure RemoteConfig :=
  if file.fileExists = false then
    .error ⟨["Config file not found: " ++ path,
             "Create it with a [remote] section (host, user, key, port)."], 1⟩
  else
    match file.remote with
    | none => .error ⟨["[remote] section missing in " ++ path], 1⟩
    | some remote =>
      let host := List.lookup "host" remote
      let user := List.lookup "user" remote
      let key := List.lookup "key" remote
      let port_str := (List.lookup "port" remote).getD "22"
      let missing := missingFields remote
      if missing.isEmpty then
        match pyIntParse port_str with
        | none => .error ⟨["Invalid port in config: " ++ port_str], 1⟩
        | some port =>
          .ok { host := host.getD "", user := user.getD "",
                key := key.getD "", port := port }
      else
        .error ⟨["Missing values in [remote] section: " ++
                 String.intercalate ", " missing], 1⟩

/-- `resolve_ip(host)`: forward lookup through the DNS oracle; a lookup
failure (`socket.gaierror` / `OSError`, modelled as `none`) is mapped to
the sentinel string `"unknown"`. -/
def resolve_ip (dns : String → Option String) (host : String) : String :=
  match dns host with
  | some ip => ip
  | none => "unknown"

/-- `build_ssh_command(cfg, remote_cmd)`: the argument vector handed to
`subprocess.run`. -/
def build_ssh_command (cfg : RemoteConfig) (remote_cmd : List String) :
    List String :=
  ["ssh", "-i", cfg.key, "-p", toString cfg.port,
   cfg.user ++ "@" ++ cfg.host] ++ remote_cmd

/-- Outcome of invoking the external process launcher on an argument
vector: normal completion with a return code, `FileNotFoundError`, or a
`KeyboardInterrupt` received while waiting. -/
inductive LaunchOutcome where
  | completed (returncode : Int)
  | notFound
  | interrupted
deriving Repr, DecidableEq

/-- The effect environment of one program invocation: the fixed config
path, the on-disk file, the DNS oracle and the process launcher. -/
structure Env where
  path : String
  file : ConfigFile
  dns : String → Option String
  launch : List String → LaunchOutcome

/-- Observable trace of one invocation: lines printed to standard output,
lines printed to the error stream, argument vectors passed to
`subprocess.run`, and the number of `load_config` calls made. -/
structure Trace where
  stdoutLines : List String
  stderrLines : List String
  launches : List (List String)
  configLoadAttempts : Nat
deriving Repr, DecidableEq

/-- How `run_remote_command` ends: `procExit` models `sys.exit` raised
inside `load_config`; `ret` is a normal return of an exit code. -/
inductive RunOutcome where
  | procExit (code : Nat)
  | ret (code : Int)
deriving Repr, DecidableEq

/-- The banner label default `remote_cmd[0] if remote_cmd else "command"`. -/
def defaultLabel : List String → String
  | [] => "command"
  | c :: _ => c

/-- The diagnostic emitted when the ssh executable is not found. -/
def sshNotFoundMsg : String :=
  "Error: ssh client not found. Install OpenSSH client and ensure " ++
    "'ssh' is in PATH."

/-- `run_remote_command(remote_cmd, cmd_label, show_banner)`: load the
configuration, resolve the host IP, optionally print the banner, build
the ssh argument vector and launch it, mapping the launcher outcome to a
return code. -/
def run_remote_command (env : Env) (remote_cmd : List String)
    (cmd_label : Option String) (show_banner : Bool) : Trace × RunOutcome :=
  match load_config env.path env.file with
  | .error f => (⟨[], f.stderrLines, [], 1⟩, .procExit f.exitCode)
  | .ok cfg =>
    let resolved_ip := resolve_ip env.dns cfg.host
    let label :=
      match cmd_label with
      | some s => if s.isEmpty then defaultLabel remote_cmd else s
      | none => defaultLabel remote_cmd
    let bannerLines :=
      if show_banner then
        ["Running " ++ label ++ " on host " ++ cfg.host ++
          " with IP " ++ resolved_ip]
      else []
    let ssh_cmd := build_ssh_command cfg remote_cmd
    match env.launch ssh_cmd with
    | .completed rc => (⟨bannerLines, [], [ssh_cmd], 1⟩, .ret rc)
    | .notFound => (⟨bannerLines, [sshNotFoundMsg], [ssh_cmd], 1⟩, .ret 1)
    | .interrupted => (⟨bannerLines, [], [ssh_cmd], 1⟩, .ret 130)

/-- The usage string printed by `print_usage` to the error stream. -/
def usageText : String :=
  "Usage:\n" ++
  "  rcr ping <ping-arguments...>\n" ++
  "  rcr nslookup <nslookup-arguments...>\n" ++
  "  rcr <command> [args...]\n\n" ++
  "Examples:\n" ++
  "  rcr ping 8.8.8.8 -c 4\n" ++
  "  rcr nslookup example.com\n" ++
  "  rcr uname -a\n" ++
  "  rcr systemctl status ssh\n"

/-- Collapse a `run_remote_command` result into the process exit status
produced by `main`'s trailing `sys.exit(code)`. -/
def finishRun : Trace × RunOutcome → Trace × Int
  | (t, .procExit c) => (t, Int.ofNat c)
  | (t, .ret c) => (t, c)

/-- `main()`: the CLI entry point, on the full `sys.argv` list (program
name first). Returns the trace and the process exit status. -/
def main (env : Env) (argv : List String) : Trace × Int :=
  if argv.length < 2 then
    (⟨[], [usageText], [], 0⟩, 1)
  else if argv.getD 1 "" = "-h" ∨ argv.getD 1 "" = "--help" then
    (⟨[], [usageText], [], 0⟩, 0)
  else
    let command := argv.getD 1 ""
    if command = "ping" then
      if argv.length < 3 then
        (⟨[], ["rcr ping requires ping arguments.",
               "Example: rcr ping 8.8.8.8 -c 4"], [], 0⟩, 1)
      else
        finishRun (run_remote_command env ("ping" :: argv.drop 2)
          (some "ping") true)
    else if command = "nslookup" then
      if argv.length < 3 then
        (⟨[], ["rcr nslookup requires a hostname.",
               "Example: rcr nslookup example.com"], [], 0⟩, 1)
      else
        finishRun (run_remote_command env ("nslookup" :: argv.drop 2)
          (some "nslookup") true)
    else
      finishRun (run_remote_command env (argv.drop 1) (some command) true)

end Rcr

namespace Rcr

/-- C1: for every config and remote command sequence (including the empty
one), `build_ssh_command` returns exactly
`["ssh", "-i", key, "-p", toString port, user ++ "@" ++ host] ++ remoteCmd`;
in particular the 6th element (index 5) is `user@host` and the element
after `"-p"` (index 4) is the string form of the port. -/
theorem build_ssh_command_exact (cfg : RemoteConfig) (remoteCmd : List String) :
    build_ssh_command cfg remoteCmd =
      ["ssh", "-i", cfg.key, "-p", toString cfg.port,
       cfg.user ++ "@" ++ cfg.host] ++ remoteCmd ∧
    (build_ssh_command cfg remoteCmd).get? 5 =
      some (cfg.user ++ "@" ++ cfg.host) ∧
    (build_ssh_command cfg remoteCmd).get? 3 = some "-p" ∧
    (build_ssh_command cfg remoteCmd).get? 4 = some (toString cfg.port) :=
  ⟨rfl, rfl, rfl, rfl⟩

/-- C8: the builder appends the remote command sequence unmodified and in
order as the trailing elements after the fixed 6-element prefix: dropping
the prefix recovers `remoteCmd` exactly, and the whole vector is the
empty-command vector followed by `remoteCmd`. -/
theorem build_ssh_command_appends_verbatim (cfg : RemoteConfig)
    (remoteCmd : List String) :
    (build_ssh_command cfg remoteCmd).drop 6 = remoteCmd ∧
    (build_ssh_command cfg remoteCmd).take 6 = build_ssh_command cfg [] ∧
    build_ssh_command cfg remoteCmd = build_ssh_command cfg [] ++ remoteCmd :=
  ⟨rfl, rfl, rfl⟩

/-- C3: a failed lookup yields the sentinel `"unknown"`, and the DNS
oracle has no influence on the launched argument vector or on the
operation's outcome: replacing the resolver changes neither. -/
theorem resolve_ip_never_fails (env : Env) (dns' : String → Option String)
    (rcmd : List String) (lbl : Option String) (sb : Bool) (host : String) :
    resolve_ip (fun _ => none) host = "unknown" ∧
    (run_remote_command { env with dns := dns' } rcmd lbl sb).1.launches =
      (run_remote_command env rcmd lbl sb).1.launches ∧
    (run_remote_command { env with dns := dns' } rcmd lbl sb).2 =
      (run_remote_command env rcmd lbl sb).2 := by
  refine ⟨rfl, ?_, ?_⟩ <;>
  · simp only [run_remote_command]
    cases hl : load_config env.path env.file with
    | error f => simp
    | ok cfg =>
      cases hlc : env.launch (build_ssh_command cfg rcmd) <;> simp [hlc]

/-- C9: a first argument of `-h` or `--help` prints the usage text to the
error stream and exits 0; no arguments at all prints the same usage text
to the error stream and exits 1. -/
theorem main_help_and_no_args (env : Env) (prog : String)
    (rest : List String) :
    main env [prog] = (⟨[], [usageText], [], 0⟩, 1) ∧
    main env (prog :: "-h" :: rest) = (⟨[], [usageText], [], 0⟩, 0) ∧
    main env (prog :: "--help" :: rest) = (⟨[], [usageText], [], 0⟩, 0) := by
  refine ⟨rfl, ?_, ?_⟩ <;> simp [main]

/-- C7: `rcr ping` with no further arguments emits the ping usage
guidance and exits 1 without loading the configuration and without
launching any process (`rcr nslookup` analogously); with at least one
argument the input is rewritten to remote command `ping :: args` with
label `"ping"` (resp. `nslookup :: args`, `"nslookup"`) and dispatched. -/
theorem main_subcommands (env : Env) (a : String) (rest : List String) :
    (main env ["rcr", "ping"]).1.stderrLines =
      ["rcr ping requires ping arguments.",
       "Example: rcr ping 8.8.8.8 -c 4"] ∧
    (main env ["rcr", "ping"]).2 = 1 ∧
    (main env ["rcr", "ping"]).1.configLoadAttempts = 0 ∧
    (main env ["rcr", "ping"]).1.launches = [] ∧
    (main env ["rcr", "nslookup"]).1.stderrLines =
      ["rcr nslookup requires a hostname.",
       "Example: rcr nslookup example.com"] ∧
    (main env ["rcr", "nslookup"]).2 = 1 ∧
    (main env ["rcr", "nslookup"]).1.configLoadAttempts = 0 ∧
    (main env ["rcr", "nslookup"]).1.launches = [] ∧
    main env ("rcr" :: "ping" :: a :: rest) =
      finishRun (run_remote_command env ("ping" :: a :: rest)
        (some "ping") true) ∧
    main env ("rcr" :: "nslookup" :: a :: rest) =
      finishRun (run_remote_command env ("nslookup" :: a :: rest)
        (some "nslookup") true) := by
  refine ⟨rfl, rfl, rfl, rfl, rfl, rfl, rfl, rfl, ?_, ?_⟩ <;>
  · simp [main]
    rw [if_neg (by omega), if_neg (by omega)]

end Rcr

namespace Rcr

/-- A well-formed on-disk configuration used as a concrete witness. -/
def fileW : ConfigFile :=
  ⟨true, some [("host", "h.example"), ("user", "alice"),
               ("key", "/k"), ("port", "2222")]⟩

/-- The configuration `load_config` produces from `fileW`. -/
def cfgW : RemoteConfig := ⟨"h.example", "alice", "/k", 2222⟩

/-- Witness environment whose launcher completes with exit code 7. -/
def envCompleted : Env := ⟨"/cfg", fileW, fun _ => none, fun _ => .completed 7⟩

/-- Witness environment whose launcher raises `FileNotFoundError`. -/
def envNotFound : Env := ⟨"/cfg", fileW, fun _ => none, fun _ => .notFound⟩

/-- Witness environment whose launcher raises `KeyboardInterrupt`. -/
def envInterrupted : Env :=
  ⟨"/cfg", fileW, fun _ => none, fun _ => .interrupted⟩

/-- Witness environment whose configuration file does not exist. -/
def envNoFile : Env :=
  ⟨"/cfg", ⟨false, none⟩, fun _ => none, fun _ => .completed 0⟩

/-- `missingFields` lists exactly the required fields whose values are
absent or empty, in the fixed order host, user, key. -/
lemma missingFields_eq (sec : List (String × String)) :
    missingFields sec =
      (if isFalsy (List.lookup "host" sec) = true then ["host"] else []) ++
      (if isFalsy (List.lookup "user" sec) = true then ["user"] else []) ++
      (if isFalsy (List.lookup "key" sec) = true then ["key"] else []) := by
  unfold missingFields
  cases h1 : isFalsy (List.lookup "host" sec) <;>
  cases h2 : isFalsy (List.lookup "user" sec) <;>
  cases h3 : isFalsy (List.lookup "key" sec) <;>
    simp [List.filter_cons, h1, h2, h3]

/-- Every failure of `load_config` carries exit status 1 and at least one
diagnostic line. -/
lemma load_config_error_shape (path : String) (file : ConfigFile)
    (f : Failure) (h : load_config path file = .error f) :
    f.exitCode = 1 ∧ f.stderrLines ≠ [] := by
  unfold load_config at h
  split at h
  · simp only [Except.error.injEq] at h
    subst h
    exact ⟨rfl, by simp⟩
  · split at h
    · simp only [Except.error.injEq] at h
      subst h
      exact ⟨rfl, by simp⟩
    · dsimp only at h
      split at h
      · split at h
        · simp only [Except.error.injEq] at h
          subst h
          exact ⟨rfl, by simp⟩
        · exact absurd h (by simp)
      · simp only [Except.error.injEq] at h
        subst h
        exact ⟨rfl, by simp⟩

/-- C2: with a loadable configuration, `run_remote_command` returns the
external process's exit code on completion, returns 1 with a diagnostic
naming `ssh` on the error stream when the executable is not found, and
returns 130 on a keyboard interrupt received during the wait. -/
theorem run_exit_code_mapping (env : Env) (rcmd : List String)
    (lbl : Option String) (sb : Bool) (cfg : RemoteConfig)
    (h : load_config env.path env.file = .ok cfg) :
    (∀ rc : Int, env.launch (build_ssh_command cfg rcmd) = .completed rc →
      (run_remote_command env rcmd lbl sb).2 = .ret rc) ∧
    (env.launch (build_ssh_command cfg rcmd) = .notFound →
      (run_remote_command env rcmd lbl sb).2 = .ret 1 ∧
      (run_remote_command env rcmd lbl sb).1.stderrLines = [sshNotFoundMsg] ∧
      ∃ pre post : String, sshNotFoundMsg = pre ++ "ssh" ++ post) ∧
    (env.launch (build_ssh_command cfg rcmd) = .interrupted →
      (run_remote_command env rcmd lbl sb).2 = .ret 130) := by
  simp only [run_remote_command, h]
  refine ⟨?_, ?_, ?_⟩
  · intro rc hlc
    simp [hlc]
  · intro hlc
    refine ⟨by simp [hlc], by simp [hlc], "Error: ",
      " client not found. Install OpenSSH client and ensure 'ssh' is in PATH.",
      rfl⟩
  · intro hlc
    simp [hlc]

/-- Witness for C2: in the three concrete environments the run returns
7, 1 and 130 respectively. -/
theorem run_exit_code_mapping_w :
    (run_remote_command envCompleted ["uname", "-a"] none true).2 = .ret 7 ∧
    (run_remote_command envNotFound ["uname", "-a"] none true).2 = .ret 1 ∧
    (run_remote_command envInterrupted ["uname", "-a"] none true).2 =
      .ret 130 :=
  ⟨(run_exit_code_mapping envCompleted ["uname", "-a"] none true cfgW
      rfl).1 7 rfl,
   ((run_exit_code_mapping envNotFound ["uname", "-a"] none true cfgW
      rfl).2.1 rfl).1,
   (run_exit_code_mapping envInterrupted ["uname", "-a"] none true cfgW
      rfl).2.2 rfl⟩

end Rcr

namespace Rcr

/-- Required-field section used as a concrete witness (no port key). -/
def secBase : List (String × String) := [("host", "h"), ("user", "u"), ("key", "k")]

/-- C4: when at least one required field is empty or absent, `load_config`
fails with exit status 1 and a single diagnostic listing the missing
field names; the listed names are exactly the required fields whose
values are absent or empty, each named, in order. -/
theorem load_config_names_all_missing (path : String)
    (sec : List (String × String)) (h : missingFields sec ≠ []) :
    load_config path ⟨true, some sec⟩ =
      .error ⟨["Missing values in [remote] section: " ++
               String.intercalate ", " (missingFields sec)], 1⟩ ∧
    missingFields sec =
      (if isFalsy (List.lookup "host" sec) = true then ["host"] else []) ++
      (if isFalsy (List.lookup "user" sec) = true then ["user"] else []) ++
      (if isFalsy (List.lookup "key" sec) = true then ["key"] else []) := by
  refine ⟨?_, missingFields_eq sec⟩
  simp [load_config, h]

/-- Witness for C4: with all three required fields absent the diagnostic
names all of host, user and key. -/
theorem load_config_names_all_missing_w :
    load_config "/cfg" ⟨true, some []⟩ =
      .error ⟨["Missing values in [remote] section: host, user, key"], 1⟩ ∧
    missingFields ([] : List (String × String)) = ["host", "user", "key"] :=
  ⟨(load_config_names_all_missing "/cfg" [] (by decide)).1, rfl⟩

/-- C5: with the required fields present, `load_config` fails with exit
status 1 and a port-specific diagnostic exactly when the supplied port
value does not parse as an integer; an absent port defaults to 22; and
any value that parses is accepted with no range validation. -/
theorem load_config_port_rules (path : String) (sec : List (String × String))
    (hm : missingFields sec = []) :
    (∀ s : String, List.lookup "port" sec = some s → pyIntParse s = none →
      load_config path ⟨true, some sec⟩ =
        .error ⟨["Invalid port in config: " ++ s], 1⟩) ∧
    (List.lookup "port" sec = none →
      ∃ cfg : RemoteConfig,
        load_config path ⟨true, some sec⟩ = .ok cfg ∧ cfg.port = 22) ∧
    (∀ (s : String) (n : Int), List.lookup "port" sec = some s →
      pyIntParse s = some n →
      ∃ cfg : RemoteConfig,
        load_config path ⟨true, some sec⟩ = .ok cfg ∧ cfg.port = n) := by
  refine ⟨?_, ?_, ?_⟩
  · intro s hs hp
    simp [load_config, hm, hs, hp]
  · intro hs
    refine ⟨⟨(List.lookup "host" sec).getD "", (List.lookup "user" sec).getD "",
             (List.lookup "key" sec).getD "", 22⟩, ?_, rfl⟩
    simp [load_config, hm, hs, show pyIntParse "22" = some 22 from rfl]
  · intro s n hs hp
    refine ⟨⟨(List.lookup "host" sec).getD "", (List.lookup "user" sec).getD "",
             (List.lookup "key" sec).getD "", n⟩, ?_, rfl⟩
    simp [load_config, hm, hs, hp]

/-- Witness for C5: `port = "abc"` is rejected with the port diagnostic,
an absent port yields 22, and the out-of-range value 70000 is accepted. -/
theorem load_config_port_rules_w :
    load_config "/cfg" ⟨true, some (secBase ++ [("port", "abc")])⟩ =
      .error ⟨["Invalid port in config: abc"], 1⟩ ∧
    (∃ cfg : RemoteConfig,
      load_config "/cfg" ⟨true, some secBase⟩ = .ok cfg ∧ cfg.port = 22) ∧
    (∃ cfg : RemoteConfig,
      load_config "/cfg" ⟨true, some (secBase ++ [("port", "70000")])⟩ =
        .ok cfg ∧ cfg.port = 70000) :=
  ⟨(load_config_port_rules "/cfg" (secBase ++ [("port", "abc")])
      (by decide)).1 "abc" rfl rfl,
   (load_config_port_rules "/cfg" secBase (by decide)).2.1 rfl,
   (load_config_port_rules "/cfg" (secBase ++ [("port", "70000")])
      (by decide)).2.2 "70000" 70000 rfl rfl⟩

/-- C6: every configuration-stage failure carries exit status 1 and at
least one diagnostic line on the error stream, and when it occurs inside
`run_remote_command` nothing is printed to standard output, no process is
launched, only the failure's diagnostics reach the error stream, and the
process exits with status 1 — all before any network or process action. -/
theorem config_failures_terminal (path : String) (file : ConfigFile)
    (f : Failure) (h : load_config path file = .error f) :
    f.exitCode = 1 ∧ f.stderrLines ≠ [] ∧
    ∀ (env : Env) (rcmd : List String) (lbl : Option String) (sb : Bool),
      env.path = path → env.file = file →
      (run_remote_command env rcmd lbl sb).1.stdoutLines = [] ∧
      (run_remote_command env rcmd lbl sb).1.launches = [] ∧
      (run_remote_command env rcmd lbl sb).1.stderrLines = f.stderrLines ∧
      (run_remote_command env rcmd lbl sb).2 = .procExit 1 := by
  obtain ⟨h1, h2⟩ := load_config_error_shape path file f h
  refine ⟨h1, h2, ?_⟩
  intro env rcmd lbl sb hp hf
  rw [show (run_remote_command env rcmd lbl sb) =
      (⟨[], f.stderrLines, [], 1⟩, .procExit f.exitCode) by
    simp only [run_remote_command, hp, hf, h]]
  simp [h1]

/-- Witness for C6: a missing config file stops the run with exit 1,
nothing launched and nothing on standard output. -/
theorem config_failures_terminal_w :
    (run_remote_command envNoFile ["uname"] none true).1.stdoutLines = [] ∧
    (run_remote_command envNoFile ["uname"] none true).1.launches = [] ∧
    (run_remote_command envNoFile ["uname"] none true).2 = .procExit 1 := by
  have h := (config_failures_terminal "/cfg" ⟨false, none⟩
    ⟨["Config file not found: /cfg",
      "Create it with a [remote] section (host, user, key, port)."], 1⟩
    rfl).2.2 envNoFile ["uname"] none true rfl rfl
  exact ⟨h.1, h.2.1, h.2.2.2⟩

/-- C10: with the banner shown and no explicit label, the banner label is
the first element of a non-empty remote command and the literal
`"command"` for an empty one; and whenever the banner is shown it
contains the configured host and the resolved IP string. -/
theorem banner_label_rules (env : Env) (cfg : RemoteConfig)
    (h : load_config env.path env.file = .ok cfg) :
    (run_remote_command env [] none true).1.stdoutLines =
      ["Running command on host " ++ cfg.host ++ " with IP " ++
        resolve_ip env.dns cfg.host] ∧
    (∀ (c : String) (cs : List String),
      (run_remote_command env (c :: cs) none true).1.stdoutLines =
        ["Running " ++ c ++ " on host " ++ cfg.host ++ " with IP " ++
          resolve_ip env.dns cfg.host]) ∧
    (∀ (rcmd : List String) (lbl : Option String),
      ∃ l : String, (run_remote_command env rcmd lbl true).1.stdoutLines =
        ["Running " ++ l ++ " on host " ++ cfg.host ++ " with IP " ++
          resolve_ip env.dns cfg.host]) := by
  refine ⟨?_, ?_, ?_⟩
  · simp only [run_remote_command, h]
    cases hlc : env.launch (build_ssh_command cfg []) <;>
      simp [hlc, defaultLabel]
  · intro c cs
    simp only [run_remote_command, h]
    cases hlc : env.launch (build_ssh_command cfg (c :: cs)) <;>
      simp [hlc, defaultLabel]
  · intro rcmd lbl
    refine ⟨match lbl with
            | some s => if s.isEmpty then defaultLabel rcmd else s
            | none => defaultLabel rcmd, ?_⟩
    simp only [run_remote_command, h]
    cases hlc : env.launch (build_ssh_command cfg rcmd) <;> simp [hlc]

/-- Witness for C10: the default banner labels on an empty and a
non-empty remote command in the concrete environment. -/
theorem banner_label_rules_w :
    (run_remote_command envCompleted [] none true).1.stdoutLines =
      ["Running command on host h.example with IP unknown"] ∧
    (run_remote_command envCompleted ["ls", "-l"] none true).1.stdoutLines =
      ["Running ls on host h.example with IP unknown"] := by
  have h := banner_label_rules envCompleted cfgW rfl
  exact ⟨h.1, h.2.1 "ls" ["-l"]⟩

end Rcr
